import Mathlib

/-!
Verification of the RENDEREXPO AI Studio backend job-lifecycle core.

This file shallowly embeds the Python source of the repository:

* `app/core/safety.py`            — prompt safety screening
* `app/clients/gpu_client.py`     — dispatch client (planner → renderer)
* `app/gpu_entry.py`              — dispatch handler (renderer side)
* `app/routers/text2img.py`       — planner orchestrator (`sd35_render`)
* `app/routers/jobs.py`           — job query service (`list_jobs_for_date`)
* `runtime/pipeline_manager.py`   — job record store (`save_job_meta` / `load_job_meta`)

JSON documents (the `meta.json` job records) are modelled as association
lists of string keys and flat JSON values; Python `dict` operations
(`get`, `update`, `setdefault`, item assignment) are embedded as functions
on those lists that agree with CPython's dictionary semantics on lookups.
Filesystem effects are modelled by explicit state values; the byte level
of a record write is modelled separately for the atomicity analysis.
Python floats are carried as exact rationals: the code under study only
passes them through, never computes with them.
-/

namespace RenderExpo

/-- Flat JSON-like value stored in a job record (`meta.json`).
Nested objects only occur as opaque configuration payloads in the source,
so a nested value is represented by the opaque constructor `obj` carrying
an identifier. -/
inductive JVal where
  | s (v : String)
  | i (v : Int)
  | f (v : ℚ)
  | b (v : Bool)
  | null
  | obj (tag : String)
  deriving DecidableEq

/-- A Python dict with string keys, as used for `meta.json` records. -/
abbrev Meta := List (String × JVal)

/-- Python `m.get(k)` / `m[k]`: first binding of `k` (CPython dicts are key-unique,
so the first binding is the only one). -/
def dictGet (m : Meta) (k : String) : Option JVal :=
  match m with
  | [] => none
  | (k2, v) :: rest => if k2 = k then some v else dictGet rest k

/-- Python `m[k] = v`: replace the binding of `k` in place, else append. -/
def dictSet (m : Meta) (k : String) (v : JVal) : Meta :=
  match m with
  | [] => [(k, v)]
  | (k2, v2) :: rest =>
      if k2 = k then (k2, v) :: rest else (k2, v2) :: dictSet rest k v

/-- Python `m.setdefault(k, v)`: insert `(k, v)` only when `k` is absent. -/
def dictSetdefault (m : Meta) (k : String) (v : JVal) : Meta :=
  if (dictGet m k).isSome then m else m ++ [(k, v)]

/-- Python `old.update(new)`: existing keys are overwritten by `new` where present,
keys only in `new` are appended (in `new`'s order), keys only in `old`
keep their value and position. -/
def dictUpdate (old new : Meta) : Meta :=
  (old.map (fun p => (p.1, (dictGet new p.1).getD p.2)))
    ++ new.filter (fun p => (dictGet old p.1).isNone)

/-- Python `m.get(k, d)` for a string default, as the source uses it. -/
def metaGetStr (m : Meta) (k : String) (d : String) : String :=
  match dictGet m k with
  | some (JVal.s s) => s
  | _ => d

/-- First-defined choice between two optional values (`a` wins when present). -/
def optOr (a b : Option JVal) : Option JVal :=
  match a with
  | some v => some v
  | none => b

theorem dictGet_append (a b : Meta) (k : String) :
    dictGet (a ++ b) k = optOr (dictGet a k) (dictGet b k) := by
  induction a with
  | nil => simp [dictGet, optOr]
  | cons p rest ih =>
      by_cases h : p.1 = k
      · simp [dictGet, h, optOr]
      · simp [dictGet, h, ih]

theorem dictGet_map_override (old : Meta) (f : String → JVal → JVal) (k : String) :
    dictGet (old.map (fun p => (p.1, f p.1 p.2))) k = (dictGet old k).map (f k) := by
  induction old with
  | nil => simp [dictGet]
  | cons p rest ih =>
      by_cases h : p.1 = k
      · subst h
        simp [dictGet]
      · simp [dictGet, h, ih]

theorem dictGet_filter_key (l : Meta) (pk : String → Bool) (k : String) :
    dictGet (l.filter (fun p => pk p.1)) k = if pk k then dictGet l k else none := by
  induction l with
  | nil => simp [dictGet]
  | cons p rest ih =>
      by_cases h : p.1 = k
      · subst h
        by_cases hp : pk p.1
        · simp [List.filter, hp, dictGet, ih]
        · simp [List.filter, hp, dictGet, ih]
      · by_cases hp : pk p.1
        · simp [List.filter, hp, dictGet, h, ih]
        · simp [List.filter, hp, dictGet, h, ih]

theorem dictGet_dictSet_self (m : Meta) (k : String) (v : JVal) :
    dictGet (dictSet m k v) k = some v := by
  induction m with
  | nil => simp [dictSet, dictGet]
  | cons p rest ih =>
      by_cases h : p.1 = k
      · simp [dictSet, dictGet, h]
      · simp [dictSet, dictGet, h, ih]

theorem dictGet_dictSet_other (m : Meta) (k k' : String) (v : JVal)
    (hne : k ≠ k') : dictGet (dictSet m k v) k' = dictGet m k' := by
  induction m with
  | nil => simp [dictSet, dictGet, hne]
  | cons p rest ih =>
      by_cases h : p.1 = k
      · subst h
        simp [dictSet, dictGet, hne]
      · simp [dictSet, dictGet, h, ih]

theorem dictGet_dictSetdefault_of_ne (m : Meta) (k k' : String) (v : JVal)
    (hne : k ≠ k') : dictGet (dictSetdefault m k v) k' = dictGet m k' := by
  unfold dictSetdefault
  by_cases hk : (dictGet m k).isSome
  · simp [hk]
  · rw [if_neg hk, dictGet_append]
    cases h' : dictGet m k' with
    | none => simp [optOr, dictGet, hne]
    | some v' => simp [optOr]

theorem dictGet_dictSetdefault_self (m : Meta) (k : String) (v : JVal) :
    dictGet (dictSetdefault m k v) k = some ((dictGet m k).getD v) := by
  unfold dictSetdefault
  cases h : dictGet m k with
  | none => rw [if_neg (by simp [h]), dictGet_append, h]
            simp [optOr, dictGet]
  | some v' => simp [h]

/-- Lookup in a merged record: the incoming bag wins per key, existing
keys not present in the incoming bag keep their existing value. -/
theorem dictGet_dictUpdate (old new : Meta) (k : String) :
    dictGet (dictUpdate old new) k = optOr (dictGet new k) (dictGet old k) := by
  unfold dictUpdate
  rw [dictGet_append]
  rw [dictGet_map_override old (fun k2 v2 => (dictGet new k2).getD v2) k]
  rw [dictGet_filter_key new (fun k2 => (dictGet old k2).isNone) k]
  cases ho : dictGet old k with
  | none =>
      simp only [ho, Option.map_none, Option.isNone_none, if_pos rfl]
      cases dictGet new k <;> simp [optOr]
  | some v0 =>
      simp only [ho, Option.map_some, Option.isNone_some]
      cases hn : dictGet new k <;> simp [optOr]

/-! ### `app/core/safety.py` — prompt safety screening -/

/-- Python's `needle in hay` substring test, on character lists. -/
def containsSub (needle : List Char) : List Char → Bool
  | [] => needle.isEmpty
  | c :: t => needle.isPrefixOf (c :: t) || containsSub needle t

/-- Python `needle in hay` on strings. -/
def pyIn (needle hay : String) : Bool :=
  containsSub needle.toList hay.toList

/-- Python `str.lower()` (the prompts under study are ASCII). -/
def pyLower (s : String) : String :=
  String.mk (s.toList.map Char.toLower)

/-- The fixed keyword blocklist `DISALLOWED_KEYWORDS` of `app/core/safety.py`. -/
def DISALLOWED_KEYWORDS : List String :=
  ["child porn", "cp", "underage", "under-age", "kidnapping", "terrorist",
   "terrorism", "bomb making", "make a bomb", "self harm", "suicide",
   "kill myself", "kill him", "kill her", "beheading", "graphic gore",
   "disemboweled", "neo-nazi", "white supremacist", "hate symbol"]

/-- Insertion into a lexicographically sorted list (models Python `sorted`). -/
def insertSorted (x : String) : List String → List String
  | [] => [x]
  | y :: t => if x < y then x :: y :: t else y :: insertSorted x t

/-- Python `sorted(set(l))` joined — dedup then lexicographic sort. -/
def sortedSet (l : List String) : List String :=
  (l.eraseDups).foldr insertSorted []

/-- Model of `check_prompt_safety(prompt, negative_prompt)` of `app/core/safety.py`:
lowercase the space-joined prompts, collect every blocklist keyword that
occurs as a substring, and reject when any was found. -/
def check_prompt_safety (prompt : String) (negative_prompt : Option String := none) :
    Bool × Option String :=
  let combined := pyLower (prompt ++ " " ++ negative_prompt.getD "")
  let found := DISALLOWED_KEYWORDS.filter (fun kw => pyIn kw combined)
  if found.isEmpty then
    (true, none)
  else
    (false, some ("Prompt contains disallowed content keywords: "
      ++ String.intercalate ", " (sortedSet found)))

/-- The condition claimed by the spec sentence for C10, rendered literally:
some blocklist keyword occurs in the lowercased *plain concatenation*
of prompt and negative prompt (no separator). -/
def claimedUnsafeCondition (prompt : String) (negative_prompt : Option String) : Bool :=
  DISALLOWED_KEYWORDS.any
    (fun kw => pyIn kw (pyLower (prompt ++ negative_prompt.getD "")))

theorem filter_isEmpty_iff_not_any {α : Type} (l : List α) (p : α → Bool) :
    (l.filter p).isEmpty = !(l.any p) := by
  induction l with
  | nil => simp
  | cons a t ih =>
      by_cases h : p a
      · simp [List.filter, h]
      · simp [List.filter, h, ih]

/-! ### `app/gpu_entry.py` — the dispatch handler (`gpu_dispatch`) -/

/-- Characters of a path after its last slash (scanning the reversal). -/
def takeUntilSlash : List Char → List Char
  | [] => []
  | c :: t => if c = '/' then [] else c :: takeUntilSlash t

/-- Model of `os.path.basename`: the part after the last slash. -/
def pyBasename (p : String) : String :=
  String.mk (takeUntilSlash p.toList.reverse).reverse

/-- The ambient runtime configuration of the GPU process, plus the behaviour
of the rendering engine call (`sd35_runtime.generate_text2img` followed by
`image.save`): either it completes, or it raises with an error text. -/
structure GpuEnv where
  /-- Whether `SD35_RUNTIME_MODE == "real"` (after lowering). -/
  runtimeModeReal : Bool
  /-- The `RUN_REAL_SD35` env flag (`ENABLE_REAL_SD35`). -/
  enableRealSD35 : Bool
  /-- Whether `sd35_runtime is not None` (a runtime object was created at startup). -/
  runtimeLoaded : Bool
  /-- The value of `sd35_runtime.is_real`. -/
  runtimeIsReal : Bool
  /-- Outcome of the engine invocation: `ok` or the raised exception's text. -/
  generate : Except String Unit

/-- Observable state of one job folder on the renderer's filesystem. -/
structure JobFolderState where
  folderExists : Bool
  /-- Parsed `meta.json` content, `none` when the file is absent. -/
  diskMeta : Option Meta
  /-- Names of non-record files present in the folder. -/
  artifacts : List String
  deriving DecidableEq

/-- HTTP-level response of the dispatch endpoint. -/
inductive Resp where
  | httpError (code : Nat) (detail : String)
  | ok (message : String)
  deriving DecidableEq

/-- Result of one dispatch call: the response sent back, the final folder
state, and whether the rendering engine was actually invoked. -/
structure DispatchOutcome where
  resp : Resp
  state : JobFolderState
  invokedEngine : Bool
  deriving DecidableEq

/-- The `real_mode` flag of `gpu_dispatch` (lines 221–227 of `app/gpu_entry.py`). -/
def realModeOf (env : GpuEnv) : Bool :=
  env.runtimeModeReal && env.enableRealSD35 && env.runtimeLoaded && env.runtimeIsReal

/-- The working record of `gpu_dispatch` (lines 205–215): on-disk record
(empty when missing), merged with the incoming bag, then `setdefault`s. -/
def workingMeta (diskMeta : Option Meta) (incoming : Meta) (jobId : String) : Meta :=
  let m := dictUpdate (diskMeta.getD []) incoming
  let m := dictSetdefault m "job_id" (JVal.s jobId)
  let m := dictSetdefault m "type" (JVal.s "text2img")
  let m := dictSetdefault m "model_name" (JVal.s "sd3.5-large")
  dictSetdefault m "mode" (JVal.s "skeleton-no-inference")

/-- Record a written file name (a rewrite leaves the name set unchanged). -/
def addFile (files : List String) (f : String) : List String :=
  if f ∈ files then files else files ++ [f]

/-- Model of `gpu_dispatch` of `app/gpu_entry.py` (lines 184–320), as a function of
the ambient runtime environment, the pre-call folder state, and the
request payload (`job_folder`, `meta`); `now` is `datetime.utcnow().isoformat()`. -/
def gpu_dispatch (env : GpuEnv) (jobFolder : String) (st : JobFolderState)
    (incoming : Meta) (now : String) : DispatchOutcome :=
  if !st.folderExists then
    { resp := .httpError 400 ("job_folder does not exist: " ++ jobFolder),
      state := st, invokedEngine := false }
  else
    let meta := workingMeta st.diskMeta incoming (pyBasename jobFolder)
    let jobType := metaGetStr meta "type" "text2img"
    if realModeOf env && (jobType == "text2img") then
      let outName := pyBasename (metaGetStr meta "planned_output_image" "output.png")
      match env.generate with
      | .error e =>
          let m2 := dictSet (dictSet (dictSet (dictSet meta
                      "status" (.s "failed"))
                      "mode" (.s "real-sd35-error"))
                      "error" (.s e))
                      "failed_at" (.s now)
          { resp := .httpError 500 ("SD3.5 txt2img generation failed: " ++ e),
            state := { st with diskMeta := some m2 }, invokedEngine := true }
      | .ok _ =>
          let m2 := dictSet (dictSet (dictSet (dictSet (dictSet meta
                      "status" (.s "completed"))
                      "mode" (.s "real-sd35"))
                      "dispatched_at" ((dictGet meta "dispatched_at").getD (.s now)))
                      "completed_at" (.s now))
                      "output_image" (.s outName)
          { resp := .ok "Real SD3.5 txt2img completed on GPU.",
            state := { st with diskMeta := some m2,
                               artifacts := addFile st.artifacts outName },
            invokedEngine := true }
    else
      let m2 := dictSet (dictSet (dictSet meta
                  "status" (.s "dispatched_skeleton"))
                  "mode" (.s "skeleton-no-inference"))
                  "dispatched_at" (.s now)
      { resp := .ok "GPU dispatch received and meta status updated (skeleton, no inference).",
        state := { st with diskMeta := some m2 }, invokedEngine := false }

/-- Model of `_create_dummy_png` (lines 154–168): writes a 512×512 solid-gray PNG
into the folder — unless PIL is unavailable, in which case it only logs. -/
def create_dummy_png (pilAvailable : Bool) (files : List String) (filename : String) :
    List String :=
  if pilAvailable then addFile files filename else files

/-- Model of `gpu_complete_simulated` of `app/gpu_entry.py` (lines 323–360): the
separate completion endpoint that creates the placeholder artifact. -/
def gpu_complete_simulated (pilAvailable : Bool) (jobFolder : String)
    (st : JobFolderState) (now : String) : DispatchOutcome :=
  if !st.folderExists then
    { resp := .httpError 400 ("job_folder does not exist: " ++ jobFolder),
      state := st, invokedEngine := false }
  else
    let meta := (st.diskMeta).getD []
    let outName := pyBasename (metaGetStr meta "planned_output_image" "output.png")
    let files := if outName ∈ st.artifacts then st.artifacts
                 else create_dummy_png pilAvailable st.artifacts outName
    let m2 := dictSet (dictSet (dictSet (dictSet meta
                "status" (.s "completed_skeleton"))
                "mode" (.s "skeleton-no-inference"))
                "completed_at" (.s now))
                "output_image" (.s outName)
    { resp := .ok "GPU completion simulated; meta status set to completed_skeleton.",
      state := { st with diskMeta := some m2, artifacts := files },
      invokedEngine := false }

/-! ### `app/clients/gpu_client.py` — the dispatch client -/

/-- Python slice `s[:n]`. -/
def strTake (s : String) (n : Nat) : String :=
  String.mk (s.toList.take n)

/-- What the single outbound `requests.post` did: either the request raised
(`requests.RequestException`, carrying its text), or a response arrived with
a status code, a raw body, and — when the body is valid JSON — its parse. -/
inductive HttpAttempt where
  | raised (excText : String)
  | responded (statusCode : Nat) (text : String) (jsonBody : Option Meta)
  deriving DecidableEq

/-- Model of `dispatch_sd35_text2img` of `app/clients/gpu_client.py` (lines 15–58):
a pure mapper from the one request attempt to `(ok, data)`. -/
def dispatch_sd35_text2img (attempt : HttpAttempt) : Bool × Meta :=
  match attempt with
  | .raised exc =>
      (false, [("error", .s "gpu_request_failed"), ("detail", .s exc)])
  | .responded code text body =>
      if code ≠ 200 then
        (false, [("error", .s "gpu_status_not_200"),
          ("status_code", .i code), ("text", .s (strTake text 1000))])
      else
        match body with
        | none => (false, [("error", .s "gpu_invalid_json"),
            ("raw_text", .s (strTake text 1000))])
        | some data => (true, data)

/-! ### `app/routers/text2img.py` — the planner orchestrator (`sd35_render`) -/

/-- The request schema `SD35Text2ImgRequest`, with its Pydantic defaults.
`guidance_scale` is a Python float, carried as an exact rational. -/
structure SD35Text2ImgRequest where
  prompt : String
  negative_prompt : Option String := none
  width : Int := 1024
  height : Int := 1024
  num_inference_steps : Int := 25
  guidance_scale : ℚ := 6
  style_preset : Option String := none
  material_preset : Option String := none
  lighting_preset : Option String := none
  seed : Option Int := none
  lora_profile : Option String := none
  refiner_profile : Option String := none
  deriving DecidableEq

def optStr : Option String → JVal
  | none => JVal.null
  | some s => JVal.s s

def optInt : Option Int → JVal
  | none => JVal.null
  | some n => JVal.i n

/-- Model of `_validate_lora_profile` and `_validate_refiner_profile` (lines 130–157):
a falsy name passes with no config; an unknown name raises HTTP 400. -/
def validate_profile (label : String) (profiles : Meta) (name : Option String) :
    Except String (Option JVal) :=
  match name with
  | none => Except.ok none
  | some n =>
      if n = "" then Except.ok none
      else
        match dictGet profiles n with
        | none => Except.error ("Unknown " ++ label ++ ": " ++ n)
        | some cfg => Except.ok (some cfg)

/-- The initial record written by `sd35_render` (lines 189–211). -/
def buildPlannedMeta (req : SD35Text2ImgRequest) (jobId now : String)
    (loraCfg refinerCfg : Option JVal) : Meta :=
  [("job_id", .s jobId), ("created_at", .s now), ("type", .s "text2img"),
   ("model_name", .s "sd3.5-large"), ("prompt", .s req.prompt),
   ("negative_prompt", optStr req.negative_prompt),
   ("width", .i req.width), ("height", .i req.height),
   ("num_inference_steps", .i req.num_inference_steps),
   ("guidance_scale", .f req.guidance_scale),
   ("style_preset", optStr req.style_preset),
   ("material_preset", optStr req.material_preset),
   ("lighting_preset", optStr req.lighting_preset),
   ("seed", optInt req.seed),
   ("planned_output_image", .s "output.png"),
   ("status", .s "planned"), ("mode", .s "skeleton-or-real"),
   ("lora_profile", optStr req.lora_profile),
   ("lora_config", loraCfg.getD JVal.null),
   ("refiner_profile", optStr req.refiner_profile),
   ("refiner_config", refinerCfg.getD JVal.null)]

/-- Response of the `/api/sd35/render` endpoint, one constructor per
response shape of the source, with the dict keys as fields. -/
inductive RenderResult where
  | httpError (code : Nat) (detail : String)
  | gpuError (job_folder meta_path planned_output_image : String) (gpu_error : Meta)
  | dispatched (job_folder meta_path output_image : String) (gpu_response : Meta)
  deriving DecidableEq

/-- Planner-side outcome: the response plus the record the orchestrator
itself persisted into the freshly created job folder (`none` when it
rejected before creating job state). -/
structure RenderOutcome where
  result : RenderResult
  persisted : Option Meta
  deriving DecidableEq

/-- Model of `sd35_render` of `app/routers/text2img.py` (lines 164–239).
`jobFolder` is the path the allocator produced; `attempt` is the behaviour
of the one outbound dispatch request. The source runs no safety screen. -/
def sd35_render (loraProfiles refinerProfiles : Meta) (attempt : HttpAttempt)
    (req : SD35Text2ImgRequest) (jobFolder now : String) : RenderOutcome :=
  match validate_profile "lora_profile" loraProfiles req.lora_profile with
  | .error msg => { result := .httpError 400 msg, persisted := none }
  | .ok loraCfg =>
    match validate_profile "refiner_profile" refinerProfiles req.refiner_profile with
    | .error msg => { result := .httpError 400 msg, persisted := none }
    | .ok refinerCfg =>
      let jobId := pyBasename jobFolder
      let metaPath := jobFolder ++ "/meta.json"
      let plannedOut := jobFolder ++ "/output.png"
      let meta := buildPlannedMeta req jobId now loraCfg refinerCfg
      let res := dispatch_sd35_text2img attempt
      if !res.1 then
        { result := .gpuError jobFolder metaPath plannedOut res.2,
          persisted := some meta }
      else
        { result := .dispatched jobFolder metaPath plannedOut res.2,
          persisted := some meta }

/-! ### `app/routers/jobs.py` — the job query service (`list_jobs_for_date`) -/

/-- State of a job subfolder's `meta.json`. -/
inductive MetaFileState where
  | missing
  | corrupt
  | parsed (m : Meta)
  deriving DecidableEq

/-- One directory entry of a date folder. -/
structure DirEntry where
  name : String
  isDir : Bool
  metaFile : MetaFileState
  deriving DecidableEq

/-- The summary built per job (lines 105–114 of `app/routers/jobs.py`). -/
def summaryOf (name : String) (meta : Meta) : Meta :=
  [("job_id", (dictGet meta "job_id").getD (.s name)),
   ("type", (dictGet meta "type").getD (.s "unknown")),
   ("model_name", (dictGet meta "model_name").getD .null),
   ("created_at", (dictGet meta "created_at").getD .null),
   ("status", (dictGet meta "status").getD (.s "unknown")),
   ("prompt", (dictGet meta "prompt").getD .null),
   ("planned_output_image", (dictGet meta "planned_output_image").getD .null),
   ("output_image", (dictGet meta "output_image").getD .null)]

structure ListResponse where
  status : String
  date : String
  jobs : List Meta
  deriving DecidableEq

/-- Whether a date-folder entry contributes a summary: it must be a
directory whose `meta.json` exists and parses. -/
def entrySummary (e : DirEntry) : Option Meta :=
  if !e.isDir then none
  else
    match e.metaFile with
    | .missing => none
    | .corrupt => none
    | .parsed m => some (summaryOf e.name m)

/-- Model of `list_jobs_for_date` of `app/routers/jobs.py` (lines 63–121).
`dateFolder` is `none` when the date's folder does not exist, otherwise
the folder's directory listing. -/
def list_jobs_for_date (dateFolder : Option (List DirEntry)) (dateStr : String) :
    ListResponse :=
  match dateFolder with
  | none => { status := "ok", date := dateStr, jobs := [] }
  | some entries =>
      { status := "ok", date := dateStr, jobs := entries.filterMap entrySummary }

/-! ### Job record store — `save_job_meta` / `load_job_meta`
(`runtime/pipeline_manager.py`, same write pattern as `_write_meta` of
`app/gpu_entry.py`) -/

/-- Model of `save_job_meta(folder, meta)` at the document level: unconditional
whole-document replace. -/
def save_job_meta (_st : Option Meta) (m : Meta) : Option Meta :=
  some m

/-- Model of `load_job_meta(folder)`: the parsed document, or `FileNotFoundError`. -/
def load_job_meta (st : Option Meta) : Except String Meta :=
  match st with
  | none => Except.error "meta.json not found in job folder"
  | some m => Except.ok m

/-- JSON string escaping as `json.dump` performs it for the quote and
backslash characters. -/
def escapeChar (c : Char) : List Char :=
  if c = '"' ∨ c = '\\' then ['\\', c] else [c]

def encString (s : String) : List Char :=
  '"' :: (s.toList.map escapeChar).flatten ++ ['"']

/-- Serialized form of one value. The decimal rendering of numbers is
abstracted by `toString`; only the shape of documents matters below. -/
def encJVal : JVal → List Char
  | .s v => encString v
  | .i v => (toString v).toList
  | .f v => (toString v).toList
  | .b true => "true".toList
  | .b false => "false".toList
  | .null => "null".toList
  | .obj tag => '{' :: tag.toList ++ ['}']

def encEntries : Meta → List Char
  | [] => []
  | [(k, v)] => encString k ++ (':' :: ' ' :: encJVal v)
  | (k, v) :: rest => encString k ++ (':' :: ' ' :: encJVal v) ++ (',' :: ' ' :: encEntries rest)

/-- Serialized document: `json.dump` of a dict always opens with `{`. -/
def encMeta (m : Meta) : List Char :=
  '{' :: encEntries m ++ ['}']

def prefixesOf (l : List Char) : List (List Char) :=
  (List.range (l.length + 1)).map (fun k => l.take k)

/-- The file contents observable during `save_job_meta` / `_write_meta`:
the code runs `open(path, "w")` — which truncates the file in place —
and then streams the serialized document into it, so a reader (or a
crash) can see the old content, or any prefix of the new serialized
document, including the truncated empty file. There is no temporary
file and no rename. -/
def writeMetaStates (oldContent : List Char) (m : Meta) : List (List Char) :=
  oldContent :: prefixesOf (encMeta m)

theorem encMeta_ne_nil (m : Meta) : encMeta m ≠ [] := by
  simp [encMeta]

/-! ## Supporting lemmas -/

theorem dictGet_dictSetdefault_of_present (m : Meta) (k0 k : String) (v0 v : JVal)
    (h : dictGet m k = some v) : dictGet (dictSetdefault m k0 v0) k = some v := by
  by_cases hk : k0 = k
  · subst hk
    unfold dictSetdefault
    rw [if_pos (by simp [h])]
    exact h
  · rw [dictGet_dictSetdefault_of_ne m k0 k v0 hk]
    exact h

theorem dictGet_workingMeta_of_incoming (disk : Option Meta) (incoming : Meta)
    (jobId k : String) (v : JVal) (h : dictGet incoming k = some v) :
    dictGet (workingMeta disk incoming jobId) k = some v := by
  unfold workingMeta
  apply dictGet_dictSetdefault_of_present
  apply dictGet_dictSetdefault_of_present
  apply dictGet_dictSetdefault_of_present
  apply dictGet_dictSetdefault_of_present
  rw [dictGet_dictUpdate, h]
  rfl

theorem dictGet_workingMeta_of_disk (disk incoming : Meta) (jobId k : String) (v : JVal)
    (hni : dictGet incoming k = none) (hd : dictGet disk k = some v) :
    dictGet (workingMeta (some disk) incoming jobId) k = some v := by
  unfold workingMeta
  apply dictGet_dictSetdefault_of_present
  apply dictGet_dictSetdefault_of_present
  apply dictGet_dictSetdefault_of_present
  apply dictGet_dictSetdefault_of_present
  rw [dictGet_dictUpdate, hni]
  simpa [optOr] using hd

/-- The boolean guarding the real path inside `gpu_dispatch`
(line 229 of `app/gpu_entry.py`): `real_mode and job_type == "text2img"`. -/
def realPathCond (env : GpuEnv) (jobFolder : String) (st : JobFolderState)
    (incoming : Meta) : Bool :=
  realModeOf env
    && (metaGetStr (workingMeta st.diskMeta incoming (pyBasename jobFolder))
          "type" "text2img" == "text2img")

theorem gpu_dispatch_skeleton_eq (env : GpuEnv) (jobFolder now : String)
    (st : JobFolderState) (incoming : Meta)
    (hfold : st.folderExists = true)
    (hcond : realPathCond env jobFolder st incoming = false) :
    gpu_dispatch env jobFolder st incoming now =
      { resp := .ok "GPU dispatch received and meta status updated (skeleton, no inference).",
        state := { st with diskMeta := some (dictSet (dictSet (dictSet
            (workingMeta st.diskMeta incoming (pyBasename jobFolder))
            "status" (.s "dispatched_skeleton"))
            "mode" (.s "skeleton-no-inference"))
            "dispatched_at" (.s now)) },
        invokedEngine := false } := by
  unfold gpu_dispatch
  rw [hfold]
  unfold realPathCond at hcond
  simp only [Bool.not_true, Bool.false_eq_true, if_false, hcond]

theorem gpu_dispatch_real_error_eq (env : GpuEnv) (jobFolder now e : String)
    (st : JobFolderState) (incoming : Meta)
    (hfold : st.folderExists = true)
    (hcond : realPathCond env jobFolder st incoming = true)
    (hgen : env.generate = .error e) :
    gpu_dispatch env jobFolder st incoming now =
      { resp := .httpError 500 ("SD3.5 txt2img generation failed: " ++ e),
        state := { st with diskMeta := some (dictSet (dictSet (dictSet (dictSet
            (workingMeta st.diskMeta incoming (pyBasename jobFolder))
            "status" (.s "failed"))
            "mode" (.s "real-sd35-error"))
            "error" (.s e))
            "failed_at" (.s now)) },
        invokedEngine := true } := by
  unfold gpu_dispatch
  rw [hfold]
  unfold realPathCond at hcond
  simp only [Bool.not_true, Bool.false_eq_true, if_false, hcond, if_true, hgen]

theorem gpu_dispatch_real_ok_eq (env : GpuEnv) (jobFolder now : String)
    (st : JobFolderState) (incoming : Meta)
    (hfold : st.folderExists = true)
    (hcond : realPathCond env jobFolder st incoming = true)
    (hgen : env.generate = .ok ()) :
    gpu_dispatch env jobFolder st incoming now =
      { resp := .ok "Real SD3.5 txt2img completed on GPU.",
        state :=
          { folderExists := st.folderExists,
            diskMeta := some (dictSet (dictSet (dictSet (dictSet (dictSet
              (workingMeta st.diskMeta incoming (pyBasename jobFolder))
              "status" (.s "completed"))
              "mode" (.s "real-sd35"))
              "dispatched_at" ((dictGet (workingMeta st.diskMeta incoming (pyBasename jobFolder))
                 "dispatched_at").getD (.s now)))
              "completed_at" (.s now))
              "output_image" (.s (pyBasename (metaGetStr
                 (workingMeta st.diskMeta incoming (pyBasename jobFolder))
                 "planned_output_image" "output.png")))),
            artifacts := addFile st.artifacts (pyBasename (metaGetStr
              (workingMeta st.diskMeta incoming (pyBasename jobFolder))
              "planned_output_image" "output.png")) },
        invokedEngine := true } := by
  unfold gpu_dispatch
  rw [hfold]
  unfold realPathCond at hcond
  simp only [Bool.not_true, Bool.false_eq_true, if_false, hcond, if_true, hgen]

theorem gpu_dispatch_invokedEngine (env : GpuEnv) (jobFolder now : String)
    (st : JobFolderState) (incoming : Meta)
    (hfold : st.folderExists = true) :
    (gpu_dispatch env jobFolder st incoming now).invokedEngine
      = realPathCond env jobFolder st incoming := by
  cases hc : realPathCond env jobFolder st incoming with
  | false => rw [gpu_dispatch_skeleton_eq env jobFolder now st incoming hfold hc]
  | true =>
      cases hg : env.generate with
      | error e => rw [gpu_dispatch_real_error_eq env jobFolder now e st incoming hfold hc hg]
      | ok u => cases u
                rw [gpu_dispatch_real_ok_eq env jobFolder now st incoming hfold hc hg]

/-! ## Claims -/

/-- Claim C1. For every dispatch call, the dispatch handler builds its working
record by loading the existing on-disk record when present (empty when
absent) and merging the incoming parameter bag over it key by key:
incoming keys win, keys only in the existing record are preserved;
`{a:1, b:2}` merged with `{b:3, c:4}` yields `{a:1, b:3, c:4}`; and the
handler behaves on a missing record exactly as on an empty one (it does
not error merely because the record is missing). -/
theorem gpu_dispatch_merge_semantics :
    (∀ (disk : Option Meta) (incoming : Meta) (jobId k : String) (v : JVal),
        dictGet incoming k = some v →
        dictGet (workingMeta disk incoming jobId) k = some v)
    ∧ (∀ (disk incoming : Meta) (jobId k : String) (v : JVal),
        dictGet incoming k = none → dictGet disk k = some v →
        dictGet (workingMeta (some disk) incoming jobId) k = some v)
    ∧ dictUpdate [("a", JVal.i 1), ("b", JVal.i 2)] [("b", JVal.i 3), ("c", JVal.i 4)]
        = [("a", JVal.i 1), ("b", JVal.i 3), ("c", JVal.i 4)]
    ∧ (∀ (env : GpuEnv) (jobFolder : String) (arts : List String)
          (incoming : Meta) (now : String),
        gpu_dispatch env jobFolder ⟨true, none, arts⟩ incoming now
          = gpu_dispatch env jobFolder ⟨true, some [], arts⟩ incoming now) := by
  refine ⟨?_, ?_, by decide, ?_⟩
  · intro disk incoming jobId k v h
    exact dictGet_workingMeta_of_incoming disk incoming jobId k v h
  · intro disk incoming jobId k v hni hd
    exact dictGet_workingMeta_of_disk disk incoming jobId k v hni hd
  · intro env jobFolder arts incoming now
    rfl

theorem gpu_dispatch_merge_semantics_witness :
    dictGet [("b", JVal.i 3), ("c", JVal.i 4)] "b" = some (JVal.i 3)
    ∧ dictGet (workingMeta (some [("a", JVal.i 1), ("b", JVal.i 2)])
        [("b", JVal.i 3), ("c", JVal.i 4)] "job1") "b" = some (JVal.i 3)
    ∧ dictGet (workingMeta (some [("a", JVal.i 1), ("b", JVal.i 2)])
        [("b", JVal.i 3), ("c", JVal.i 4)] "job1") "a" = some (JVal.i 1) :=
  ⟨by decide,
   gpu_dispatch_merge_semantics.1 (some [("a", JVal.i 1), ("b", JVal.i 2)])
     [("b", JVal.i 3), ("c", JVal.i 4)] "job1" "b" (JVal.i 3) (by decide),
   gpu_dispatch_merge_semantics.2.1 [("a", JVal.i 1), ("b", JVal.i 2)]
     [("b", JVal.i 3), ("c", JVal.i 4)] "job1" "a" (JVal.i 1) (by decide) (by decide)⟩

/-- Claim C2. The dispatch handler attempts the real rendering path if and only
if the process-wide real-execution flag is set (`SD35_RUNTIME_MODE=real` and
`RUN_REAL_SD35`), the rendering engine reports itself successfully
initialized (a runtime object exists and `is_real` holds), and the working
record's job type is `text2img`; and every dispatch of a job of an
unsupported type ends with persisted status `dispatched_skeleton`
(spelled `dispatched-skeleton` in the spec), whatever the flags. -/
theorem real_path_eligibility :
    (∀ (env : GpuEnv) (jobFolder now : String) (st : JobFolderState) (incoming : Meta),
      st.folderExists = true →
      ((gpu_dispatch env jobFolder st incoming now).invokedEngine = true
        ↔ ((env.runtimeModeReal = true ∧ env.enableRealSD35 = true)
            ∧ (env.runtimeLoaded = true ∧ env.runtimeIsReal = true)
            ∧ metaGetStr (workingMeta st.diskMeta incoming (pyBasename jobFolder))
                "type" "text2img" = "text2img")))
    ∧ (∀ (env : GpuEnv) (jobFolder now : String) (st : JobFolderState) (incoming : Meta),
        st.folderExists = true →
        metaGetStr (workingMeta st.diskMeta incoming (pyBasename jobFolder))
            "type" "text2img" ≠ "text2img" →
        dictGet (((gpu_dispatch env jobFolder st incoming now).state.diskMeta).getD [])
            "status" = some (JVal.s "dispatched_skeleton")) := by
  constructor
  · intro env jobFolder now st incoming hfold
    rw [gpu_dispatch_invokedEngine env jobFolder now st incoming hfold]
    unfold realPathCond realModeOf
    simp [Bool.and_eq_true, beq_iff_eq, and_assoc]
  · intro env jobFolder now st incoming hfold htype
    have hcond : realPathCond env jobFolder st incoming = false := by
      unfold realPathCond
      simp [beq_eq_false_iff_ne, htype]
    rw [gpu_dispatch_skeleton_eq env jobFolder now st incoming hfold hcond]
    simp only [Option.getD_some]
    rw [dictGet_dictSet_other _ "dispatched_at" "status" _ (by decide)]
    rw [dictGet_dictSet_other _ "mode" "status" _ (by decide)]
    rw [dictGet_dictSet_self]

theorem real_path_eligibility_witness :
    ((gpu_dispatch ⟨true, true, true, true, Except.ok ()⟩ "outputs/d/j1"
        ⟨true, none, []⟩ [] "T").invokedEngine = true)
    ∧ dictGet (((gpu_dispatch ⟨true, true, true, true, Except.ok ()⟩ "outputs/d/j2"
        ⟨true, none, []⟩ [("type", JVal.s "depth-map")] "T").state.diskMeta).getD [])
        "status" = some (JVal.s "dispatched_skeleton") :=
  ⟨(real_path_eligibility.1 ⟨true, true, true, true, Except.ok ()⟩ "outputs/d/j1" "T"
      ⟨true, none, []⟩ [] rfl).mpr ⟨⟨rfl, rfl⟩, ⟨rfl, rfl⟩, by decide⟩,
   real_path_eligibility.2 ⟨true, true, true, true, Except.ok ()⟩ "outputs/d/j2" "T"
      ⟨true, none, []⟩ [("type", JVal.s "depth-map")] rfl (by decide)⟩

/-- Claim C3. When the real-path engine invocation raises, the dispatch handler
persists a record with status `failed`, mode `real-sd35-error`, the raised
error text in `error`, `failed_at` stamped, and no `output_image` (for a
record that had none), writes no artifact, and surfaces the failure to the
caller as an HTTP 500 error response rather than falling back to the
skeleton path. -/
theorem engine_failure_visibility
    (env : GpuEnv) (jobFolder now errText : String) (st : JobFolderState) (incoming : Meta)
    (hfold : st.folderExists = true)
    (hcond : realPathCond env jobFolder st incoming = true)
    (hgen : env.generate = Except.error errText)
    (hnoimg : dictGet (workingMeta st.diskMeta incoming (pyBasename jobFolder))
        "output_image" = none) :
    (gpu_dispatch env jobFolder st incoming now).resp
        = Resp.httpError 500 ("SD3.5 txt2img generation failed: " ++ errText)
    ∧ (gpu_dispatch env jobFolder st incoming now).state.artifacts = st.artifacts
    ∧ ∃ m2, (gpu_dispatch env jobFolder st incoming now).state.diskMeta = some m2
        ∧ dictGet m2 "status" = some (JVal.s "failed")
        ∧ dictGet m2 "mode" = some (JVal.s "real-sd35-error")
        ∧ dictGet m2 "error" = some (JVal.s errText)
        ∧ dictGet m2 "failed_at" = some (JVal.s now)
        ∧ dictGet m2 "output_image" = none := by
  rw [gpu_dispatch_real_error_eq env jobFolder now errText st incoming hfold hcond hgen]
  refine ⟨rfl, rfl, _, rfl, ?_, ?_, ?_, ?_, ?_⟩
  · rw [dictGet_dictSet_other _ "failed_at" "status" _ (by decide)]
    rw [dictGet_dictSet_other _ "error" "status" _ (by decide)]
    rw [dictGet_dictSet_other _ "mode" "status" _ (by decide)]
    rw [dictGet_dictSet_self]
  · rw [dictGet_dictSet_other _ "failed_at" "mode" _ (by decide)]
    rw [dictGet_dictSet_other _ "error" "mode" _ (by decide)]
    rw [dictGet_dictSet_self]
  · rw [dictGet_dictSet_other _ "failed_at" "error" _ (by decide)]
    rw [dictGet_dictSet_self]
  · rw [dictGet_dictSet_self]
  · rw [dictGet_dictSet_other _ "failed_at" "output_image" _ (by decide)]
    rw [dictGet_dictSet_other _ "error" "output_image" _ (by decide)]
    rw [dictGet_dictSet_other _ "mode" "output_image" _ (by decide)]
    rw [dictGet_dictSet_other _ "status" "output_image" _ (by decide)]
    exact hnoimg

theorem engine_failure_visibility_witness :
    (gpu_dispatch ⟨true, true, true, true, Except.error "CUDA out of memory"⟩
        "outputs/d/j3" ⟨true, none, []⟩ [] "T").resp
      = Resp.httpError 500 ("SD3.5 txt2img generation failed: " ++ "CUDA out of memory")
    ∧ (gpu_dispatch ⟨true, true, true, true, Except.error "CUDA out of memory"⟩
        "outputs/d/j3" ⟨true, none, []⟩ [] "T").state.artifacts = []
    ∧ ∃ m2, (gpu_dispatch ⟨true, true, true, true, Except.error "CUDA out of memory"⟩
        "outputs/d/j3" ⟨true, none, []⟩ [] "T").state.diskMeta = some m2
        ∧ dictGet m2 "status" = some (JVal.s "failed")
        ∧ dictGet m2 "mode" = some (JVal.s "real-sd35-error")
        ∧ dictGet m2 "error" = some (JVal.s "CUDA out of memory")
        ∧ dictGet m2 "failed_at" = some (JVal.s "T")
        ∧ dictGet m2 "output_image" = none :=
  engine_failure_visibility ⟨true, true, true, true, Except.error "CUDA out of memory"⟩
    "outputs/d/j3" "T" "CUDA out of memory" ⟨true, none, []⟩ []
    rfl (by decide) rfl (by decide)

theorem dictGet_buildPlannedMeta_status (req : SD35Text2ImgRequest)
    (jobId now : String) (loraCfg refinerCfg : Option JVal) :
    dictGet (buildPlannedMeta req jobId now loraCfg refinerCfg) "status"
      = some (JVal.s "planned") := by
  simp [buildPlannedMeta, dictGet]

theorem dictGet_buildPlannedMeta_type (req : SD35Text2ImgRequest)
    (jobId now : String) (loraCfg refinerCfg : Option JVal) :
    dictGet (buildPlannedMeta req jobId now loraCfg refinerCfg) "type"
      = some (JVal.s "text2img") := by
  simp [buildPlannedMeta, dictGet]

/-- Claim C4. When the dispatch client reports a failure (transport, protocol
or decode), the planner orchestrator leaves its persisted record unchanged —
its status is still `planned` — and returns a gpu-error result that carries
the job folder location; a later dispatch of the same folder can still
transition the record to `dispatched_skeleton` (skeleton renderer) or to
`completed` (real renderer whose engine call succeeds). -/
theorem dispatch_failure_leaves_planned_record
    (lp rp : Meta) (attempt : HttpAttempt) (req : SD35Text2ImgRequest)
    (jobFolder now now2 : String) (envS envR : GpuEnv)
    (loraCfg refinerCfg : Option JVal)
    (hl : validate_profile "lora_profile" lp req.lora_profile = Except.ok loraCfg)
    (hr : validate_profile "refiner_profile" rp req.refiner_profile = Except.ok refinerCfg)
    (hfail : (dispatch_sd35_text2img attempt).1 = false)
    (hS : realModeOf envS = false)
    (hR : realModeOf envR = true) (hRg : envR.generate = Except.ok ()) :
    (sd35_render lp rp attempt req jobFolder now).persisted
        = some (buildPlannedMeta req (pyBasename jobFolder) now loraCfg refinerCfg)
    ∧ dictGet (buildPlannedMeta req (pyBasename jobFolder) now loraCfg refinerCfg) "status"
        = some (JVal.s "planned")
    ∧ (sd35_render lp rp attempt req jobFolder now).result
        = RenderResult.gpuError jobFolder (jobFolder ++ "/meta.json")
            (jobFolder ++ "/output.png") (dispatch_sd35_text2img attempt).2
    ∧ dictGet (((gpu_dispatch envS jobFolder
          ⟨true, some (buildPlannedMeta req (pyBasename jobFolder) now loraCfg refinerCfg), []⟩
          (buildPlannedMeta req (pyBasename jobFolder) now loraCfg refinerCfg) now2).state.diskMeta).getD [])
        "status" = some (JVal.s "dispatched_skeleton")
    ∧ dictGet (((gpu_dispatch envR jobFolder
          ⟨true, some (buildPlannedMeta req (pyBasename jobFolder) now loraCfg refinerCfg), []⟩
          (buildPlannedMeta req (pyBasename jobFolder) now loraCfg refinerCfg) now2).state.diskMeta).getD [])
        "status" = some (JVal.s "completed") := by
  have hout : sd35_render lp rp attempt req jobFolder now =
      { result := RenderResult.gpuError jobFolder (jobFolder ++ "/meta.json")
          (jobFolder ++ "/output.png") (dispatch_sd35_text2img attempt).2,
        persisted := some (buildPlannedMeta req (pyBasename jobFolder) now loraCfg refinerCfg) } := by
    unfold sd35_render
    rw [hl, hr]
    simp only [hfail, Bool.not_false, if_true]
  have htype : metaGetStr (workingMeta
      (some (buildPlannedMeta req (pyBasename jobFolder) now loraCfg refinerCfg))
      (buildPlannedMeta req (pyBasename jobFolder) now loraCfg refinerCfg)
      (pyBasename jobFolder)) "type" "text2img" = "text2img" := by
    unfold metaGetStr
    rw [dictGet_workingMeta_of_incoming _ _ _ _ _
      (dictGet_buildPlannedMeta_type req (pyBasename jobFolder) now loraCfg refinerCfg)]
  refine ⟨by rw [hout], dictGet_buildPlannedMeta_status req _ now loraCfg refinerCfg,
    by rw [hout], ?_, ?_⟩
  · have hcond : realPathCond envS jobFolder
        ⟨true, some (buildPlannedMeta req (pyBasename jobFolder) now loraCfg refinerCfg), []⟩
        (buildPlannedMeta req (pyBasename jobFolder) now loraCfg refinerCfg) = false := by
      simp [realPathCond, hS]
    rw [gpu_dispatch_skeleton_eq _ _ _ _ _ rfl hcond]
    simp only [Option.getD_some]
    rw [dictGet_dictSet_other _ "dispatched_at" "status" _ (by decide)]
    rw [dictGet_dictSet_other _ "mode" "status" _ (by decide)]
    rw [dictGet_dictSet_self]
  · have hcond : realPathCond envR jobFolder
        ⟨true, some (buildPlannedMeta req (pyBasename jobFolder) now loraCfg refinerCfg), []⟩
        (buildPlannedMeta req (pyBasename jobFolder) now loraCfg refinerCfg) = true := by
      simp [realPathCond, hR, htype]
    rw [gpu_dispatch_real_ok_eq _ _ _ _ _ rfl hcond hRg]
    simp only [Option.getD_some]
    rw [dictGet_dictSet_other _ "output_image" "status" _ (by decide)]
    rw [dictGet_dictSet_other _ "completed_at" "status" _ (by decide)]
    rw [dictGet_dictSet_other _ "dispatched_at" "status" _ (by decide)]
    rw [dictGet_dictSet_other _ "mode" "status" _ (by decide)]
    rw [dictGet_dictSet_self]

theorem dispatch_failure_leaves_planned_record_witness :
    (sd35_render [] [] (HttpAttempt.raised "timeout")
        { prompt := "a red chair" } "outputs/2025-01-01/abc" "T0").persisted
        = some (buildPlannedMeta { prompt := "a red chair" }
            (pyBasename "outputs/2025-01-01/abc") "T0" none none)
    ∧ dictGet (buildPlannedMeta { prompt := "a red chair" }
          (pyBasename "outputs/2025-01-01/abc") "T0" none none) "status"
        = some (JVal.s "planned")
    ∧ (sd35_render [] [] (HttpAttempt.raised "timeout")
        { prompt := "a red chair" } "outputs/2025-01-01/abc" "T0").result
        = RenderResult.gpuError "outputs/2025-01-01/abc" ("outputs/2025-01-01/abc" ++ "/meta.json")
            ("outputs/2025-01-01/abc" ++ "/output.png")
            (dispatch_sd35_text2img (HttpAttempt.raised "timeout")).2
    ∧ dictGet (((gpu_dispatch ⟨false, false, false, false, Except.ok ()⟩ "outputs/2025-01-01/abc"
          ⟨true, some (buildPlannedMeta { prompt := "a red chair" }
              (pyBasename "outputs/2025-01-01/abc") "T0" none none), []⟩
          (buildPlannedMeta { prompt := "a red chair" }
              (pyBasename "outputs/2025-01-01/abc") "T0" none none) "T1").state.diskMeta).getD [])
        "status" = some (JVal.s "dispatched_skeleton")
    ∧ dictGet (((gpu_dispatch ⟨true, true, true, true, Except.ok ()⟩ "outputs/2025-01-01/abc"
          ⟨true, some (buildPlannedMeta { prompt := "a red chair" }
              (pyBasename "outputs/2025-01-01/abc") "T0" none none), []⟩
          (buildPlannedMeta { prompt := "a red chair" }
              (pyBasename "outputs/2025-01-01/abc") "T0" none none) "T1").state.diskMeta).getD [])
        "status" = some (JVal.s "completed") :=
  dispatch_failure_leaves_planned_record [] [] (HttpAttempt.raised "timeout")
    { prompt := "a red chair" } "outputs/2025-01-01/abc" "T0" "T1"
    ⟨false, false, false, false, Except.ok ()⟩ ⟨true, true, true, true, Except.ok ()⟩
    none none rfl rfl rfl rfl rfl rfl

/-- Environment of a renderer running with real execution disabled. -/
def skeletonEnv : GpuEnv := ⟨false, false, false, false, Except.ok ()⟩

/-- The planned record of the spec's end-to-end scenario
(`{prompt: "a red chair", width: 512, height: 512}`). -/
def redChairMeta : Meta :=
  buildPlannedMeta { prompt := "a red chair", width := 512, height := 512 }
    "job1" "T0" none none

theorem mem_addFile (files : List String) (f : String) : f ∈ addFile files f := by
  unfold addFile
  by_cases h : f ∈ files
  · simp [h]
  · simp [h]

theorem complete_simulated_creates_artifact (jobFolder now : String) (st : JobFolderState)
    (hfold : st.folderExists = true) :
    pyBasename (metaGetStr (st.diskMeta.getD []) "planned_output_image" "output.png")
      ∈ (gpu_complete_simulated true jobFolder st now).state.artifacts := by
  unfold gpu_complete_simulated
  rw [hfold]
  simp only [Bool.not_true, Bool.false_eq_true, if_false]
  by_cases h : pyBasename (metaGetStr (st.diskMeta.getD [])
      "planned_output_image" "output.png") ∈ st.artifacts
  · simp [h]
  · simp [h, create_dummy_png, mem_addFile]

/-- Counterexample for C5. The claim says every fallback-path dispatch
produces a placeholder artifact under the promised filename. In the code
the fallback branch of `gpu_dispatch` only rewrites the record: dispatching
the spec's end-to-end scenario (`a red chair`, 512×512, real execution
disabled) against a folder with no files persists
`status=dispatched_skeleton` yet leaves the folder without any artifact,
so nothing exists at `planned_output`. -/
theorem fallback_no_artifact_cex :
    dictGet (((gpu_dispatch skeletonEnv "outputs/2025-01-01/job1"
        ⟨true, some redChairMeta, []⟩ redChairMeta "T1").state.diskMeta).getD [])
        "status" = some (JVal.s "dispatched_skeleton")
    ∧ dictGet (((gpu_dispatch skeletonEnv "outputs/2025-01-01/job1"
        ⟨true, some redChairMeta, []⟩ redChairMeta "T1").state.diskMeta).getD [])
        "mode" = some (JVal.s "skeleton-no-inference")
    ∧ dictGet redChairMeta "planned_output_image" = some (JVal.s "output.png")
    ∧ (gpu_dispatch skeletonEnv "outputs/2025-01-01/job1"
        ⟨true, some redChairMeta, []⟩ redChairMeta "T1").state.artifacts = [] := by
  decide

/-- Amended C5. On the fallback path the dispatch handler persists the
record with `status=dispatched_skeleton`, `mode=skeleton-no-inference` and
`dispatched_at` stamped, and responds ok — but it creates **no** placeholder
artifact (the folder's files are untouched); the deterministic placeholder
image is produced only by the separate `complete-simulated` endpoint, which
does add a file under the promised output filename. -/
theorem fallback_path_record_only
    (env : GpuEnv) (jobFolder now : String) (st : JobFolderState) (incoming : Meta)
    (hfold : st.folderExists = true)
    (hcond : realPathCond env jobFolder st incoming = false) :
    (gpu_dispatch env jobFolder st incoming now).state.artifacts = st.artifacts
    ∧ (gpu_dispatch env jobFolder st incoming now).resp
        = Resp.ok "GPU dispatch received and meta status updated (skeleton, no inference)."
    ∧ (∃ m2, (gpu_dispatch env jobFolder st incoming now).state.diskMeta = some m2
        ∧ dictGet m2 "status" = some (JVal.s "dispatched_skeleton")
        ∧ dictGet m2 "mode" = some (JVal.s "skeleton-no-inference")
        ∧ dictGet m2 "dispatched_at" = some (JVal.s now))
    ∧ pyBasename (metaGetStr
          (((gpu_dispatch env jobFolder st incoming now).state.diskMeta).getD [])
          "planned_output_image" "output.png")
        ∈ (gpu_complete_simulated true jobFolder
            (gpu_dispatch env jobFolder st incoming now).state now).state.artifacts := by
  rw [gpu_dispatch_skeleton_eq env jobFolder now st incoming hfold hcond]
  refine ⟨rfl, rfl, ⟨_, rfl, ?_, ?_, ?_⟩, ?_⟩
  · rw [dictGet_dictSet_other _ "dispatched_at" "status" _ (by decide)]
    rw [dictGet_dictSet_other _ "mode" "status" _ (by decide)]
    rw [dictGet_dictSet_self]
  · rw [dictGet_dictSet_other _ "dispatched_at" "mode" _ (by decide)]
    rw [dictGet_dictSet_self]
  · rw [dictGet_dictSet_self]
  · exact complete_simulated_creates_artifact jobFolder now _ hfold

theorem fallback_path_record_only_witness :
    (gpu_dispatch skeletonEnv "outputs/2025-01-01/job2"
        ⟨true, some redChairMeta, []⟩ redChairMeta "T1").state.artifacts = []
    ∧ (gpu_dispatch skeletonEnv "outputs/2025-01-01/job2"
        ⟨true, some redChairMeta, []⟩ redChairMeta "T1").resp
        = Resp.ok "GPU dispatch received and meta status updated (skeleton, no inference)."
    ∧ (∃ m2, (gpu_dispatch skeletonEnv "outputs/2025-01-01/job2"
        ⟨true, some redChairMeta, []⟩ redChairMeta "T1").state.diskMeta = some m2
        ∧ dictGet m2 "status" = some (JVal.s "dispatched_skeleton")
        ∧ dictGet m2 "mode" = some (JVal.s "skeleton-no-inference")
        ∧ dictGet m2 "dispatched_at" = some (JVal.s "T1"))
    ∧ pyBasename (metaGetStr
          (((gpu_dispatch skeletonEnv "outputs/2025-01-01/job2"
              ⟨true, some redChairMeta, []⟩ redChairMeta "T1").state.diskMeta).getD [])
          "planned_output_image" "output.png")
        ∈ (gpu_complete_simulated true "outputs/2025-01-01/job2"
            (gpu_dispatch skeletonEnv "outputs/2025-01-01/job2"
              ⟨true, some redChairMeta, []⟩ redChairMeta "T1").state "T1").state.artifacts :=
  fallback_path_record_only skeletonEnv "outputs/2025-01-01/job2" "T1"
    ⟨true, some redChairMeta, []⟩ redChairMeta rfl (by decide)

/-- Counterexample for C6. The claim fixes the synthesized error strings as
`transport_failed` (raised request) and `decode_failed` (unparsable body).
The client actually synthesizes `gpu_request_failed` and `gpu_invalid_json`
(and `gpu_status_not_200` for a non-success status). -/
theorem client_error_strings_cex :
    (dispatch_sd35_text2img (HttpAttempt.raised "connection refused")).1 = false
    ∧ dictGet (dispatch_sd35_text2img (HttpAttempt.raised "connection refused")).2 "error"
        = some (JVal.s "gpu_request_failed")
    ∧ dictGet (dispatch_sd35_text2img (HttpAttempt.raised "connection refused")).2 "error"
        ≠ some (JVal.s "transport_failed")
    ∧ (dispatch_sd35_text2img (HttpAttempt.responded 200 "not json" none)).1 = false
    ∧ dictGet (dispatch_sd35_text2img (HttpAttempt.responded 200 "not json" none)).2 "error"
        = some (JVal.s "gpu_invalid_json")
    ∧ dictGet (dispatch_sd35_text2img (HttpAttempt.responded 200 "not json" none)).2 "error"
        ≠ some (JVal.s "decode_failed") := by
  decide

/-- Amended C6. The dispatch client is a pure mapper of its single
request attempt (the embedding is a function of the one `HttpAttempt`; the
source performs exactly one `requests.post` and touches no local state) and
classifies every outcome into exactly one result: a raised request maps to
`ok=False` with `error="gpu_request_failed"` and the underlying error text;
a non-200 status maps to `ok=False` with `error="gpu_status_not_200"`, the
status code, and the body truncated to 1000 characters; a 200 response with
an unparsable body maps to `ok=False` with `error="gpu_invalid_json"` and
the truncated raw body; and a 200 response with a decodable body maps to
`ok=True` with the decoded body. -/
theorem client_failure_classification :
    (∀ exc : String, dispatch_sd35_text2img (HttpAttempt.raised exc)
        = (false, [("error", JVal.s "gpu_request_failed"), ("detail", JVal.s exc)]))
    ∧ (∀ (code : Nat) (text : String) (body : Option Meta), code ≠ 200 →
        dispatch_sd35_text2img (HttpAttempt.responded code text body)
          = (false, [("error", JVal.s "gpu_status_not_200"),
              ("status_code", JVal.i code), ("text", JVal.s (strTake text 1000))]))
    ∧ (∀ text : String, dispatch_sd35_text2img (HttpAttempt.responded 200 text none)
        = (false, [("error", JVal.s "gpu_invalid_json"),
            ("raw_text", JVal.s (strTake text 1000))]))
    ∧ (∀ (text : String) (data : Meta),
        dispatch_sd35_text2img (HttpAttempt.responded 200 text (some data)) = (true, data))
    ∧ (∀ (text : String) (n : Nat), (strTake text n).toList.length ≤ n) := by
  refine ⟨fun exc => rfl, ?_, fun text => rfl, fun text data => rfl, ?_⟩
  · intro code text body hne
    simp only [dispatch_sd35_text2img]
    rw [if_pos hne]
  · intro text n
    simp [strTake]

theorem client_failure_classification_witness :
    dispatch_sd35_text2img (HttpAttempt.responded 500 "Internal Server Error" none)
      = (false, [("error", JVal.s "gpu_status_not_200"),
          ("status_code", JVal.i 500), ("text", JVal.s (strTake "Internal Server Error" 1000))]) :=
  client_failure_classification.2.1 500 "Internal Server Error" none (by decide)

/-- Whether a `meta.json` file state is a successfully parsed record. -/
def isParsedMeta : MetaFileState → Bool
  | .parsed _ => true
  | _ => false

theorem entrySummary_isSome (e : DirEntry) :
    (entrySummary e).isSome = (e.isDir && isParsedMeta e.metaFile) := by
  unfold entrySummary isParsedMeta
  cases hd : e.isDir <;> cases e.metaFile <;> simp

theorem length_filterMap_eq_length_filter {α β : Type} (f : α → Option β) (p : α → Bool)
    (h : ∀ a, (f a).isSome = p a) (l : List α) :
    (l.filterMap f).length = (l.filter p).length := by
  induction l with
  | nil => rfl
  | cons a t ih =>
      have ha := h a
      cases hf : f a with
      | none =>
          rw [hf] at ha
          simp only [List.filterMap_cons, hf, List.filter_cons, ← ha]
          simpa using ih
      | some b =>
          rw [hf] at ha
          simp only [List.filterMap_cons, hf, List.filter_cons, ← ha]
          simpa using ih

/-- Claim C7. `list(date)` never fails as a whole: a missing date folder
yields an ok response with an empty job list; an existing folder yields one
summary per job subfolder whose record parses, skipping subfolders whose
record is missing or corrupt — a date folder with 3 job subfolders of which
one has a corrupt record yields exactly 2 summaries. -/
theorem list_jobs_isolation :
    (∀ d : String, list_jobs_for_date none d = { status := "ok", date := d, jobs := [] })
    ∧ (∀ (entries : List DirEntry) (d : String),
        (list_jobs_for_date (some entries) d).status = "ok"
        ∧ (list_jobs_for_date (some entries) d).jobs.length
            = (entries.filter (fun e => e.isDir && isParsedMeta e.metaFile)).length)
    ∧ (list_jobs_for_date (some
        [⟨"j1", true, MetaFileState.parsed [("status", JVal.s "planned")]⟩,
         ⟨"j2", true, MetaFileState.corrupt⟩,
         ⟨"j3", true, MetaFileState.parsed [("status", JVal.s "completed")]⟩])
        "2025-01-01").jobs
      = [summaryOf "j1" [("status", JVal.s "planned")],
         summaryOf "j3" [("status", JVal.s "completed")]] := by
  refine ⟨fun d => rfl, ?_, by decide⟩
  intro entries d
  exact ⟨rfl, length_filterMap_eq_length_filter entrySummary _ entrySummary_isSome entries⟩

theorem list_jobs_isolation_witness :
    list_jobs_for_date none "2099-12-31" = { status := "ok", date := "2099-12-31", jobs := [] }
    ∧ (list_jobs_for_date (some [⟨"j1", true, MetaFileState.missing⟩]) "2099-12-31").status
        = "ok" :=
  ⟨list_jobs_isolation.1 "2099-12-31",
   (list_jobs_isolation.2.1 [⟨"j1", true, MetaFileState.missing⟩] "2099-12-31").1⟩

/-- Counterexample for C8. The claim says `sd35_render` runs the safety
screen before creating job state and rejects unsafe text without persisting
anything. The source of `app/routers/text2img.py` never invokes
`check_prompt_safety`: for the prompt `"child porn"` — which the screen
reports unsafe — the orchestrator persists a `planned` record and returns a
normal (non-client-error) response. -/
theorem no_safety_screen_cex :
    (check_prompt_safety "child porn" none).1 = false
    ∧ (sd35_render [] [] (HttpAttempt.raised "net down")
        { prompt := "child porn" } "outputs/2025-01-01/jobx" "T0").persisted
        = some (buildPlannedMeta { prompt := "child porn" }
            (pyBasename "outputs/2025-01-01/jobx") "T0" none none)
    ∧ dictGet (buildPlannedMeta { prompt := "child porn" }
          (pyBasename "outputs/2025-01-01/jobx") "T0" none none) "status"
        = some (JVal.s "planned")
    ∧ ∀ (code : Nat) (detail : String),
        (sd35_render [] [] (HttpAttempt.raised "net down")
          { prompt := "child porn" } "outputs/2025-01-01/jobx" "T0").result
          ≠ RenderResult.httpError code detail := by
  refine ⟨by decide, by decide, by decide, ?_⟩
  intro code detail h
  rw [show (sd35_render [] [] (HttpAttempt.raised "net down")
      { prompt := "child porn" } "outputs/2025-01-01/jobx" "T0").result
      = RenderResult.gpuError "outputs/2025-01-01/jobx"
          ("outputs/2025-01-01/jobx" ++ "/meta.json")
          ("outputs/2025-01-01/jobx" ++ "/output.png")
          [("error", JVal.s "gpu_request_failed"), ("detail", JVal.s "net down")]
      from rfl] at h
  exact RenderResult.noConfusion h

/-- Amended C8. `sd35_render` performs no safety screening at all: for
every request — in particular one whose text `check_prompt_safety` reports
unsafe — once its profile references validate, a job record is persisted
with the prompt verbatim and the response is never a client-error
rejection. (The safety screen exists in `app/core/safety.py` but only the
depth router consults it.) -/
theorem render_ignores_safety_screen
    (lp rp : Meta) (attempt : HttpAttempt) (req : SD35Text2ImgRequest)
    (jobFolder now : String) (loraCfg refinerCfg : Option JVal)
    (hl : validate_profile "lora_profile" lp req.lora_profile = Except.ok loraCfg)
    (hr : validate_profile "refiner_profile" rp req.refiner_profile = Except.ok refinerCfg)
    (_hblocked : (check_prompt_safety req.prompt req.negative_prompt).1 = false) :
    (sd35_render lp rp attempt req jobFolder now).persisted
        = some (buildPlannedMeta req (pyBasename jobFolder) now loraCfg refinerCfg)
    ∧ dictGet (buildPlannedMeta req (pyBasename jobFolder) now loraCfg refinerCfg) "prompt"
        = some (JVal.s req.prompt)
    ∧ ∀ (code : Nat) (detail : String),
        (sd35_render lp rp attempt req jobFolder now).result
          ≠ RenderResult.httpError code detail := by
  have hprompt : dictGet (buildPlannedMeta req (pyBasename jobFolder) now loraCfg refinerCfg)
      "prompt" = some (JVal.s req.prompt) := by
    simp [buildPlannedMeta, dictGet]
  by_cases hd : (dispatch_sd35_text2img attempt).1 = true
  · have hout : sd35_render lp rp attempt req jobFolder now =
        { result := RenderResult.dispatched jobFolder (jobFolder ++ "/meta.json")
            (jobFolder ++ "/output.png") (dispatch_sd35_text2img attempt).2,
          persisted := some (buildPlannedMeta req (pyBasename jobFolder) now loraCfg refinerCfg) } := by
      unfold sd35_render
      rw [hl, hr]
      simp only [hd, Bool.not_true, Bool.false_eq_true, if_false]
    rw [hout]
    exact ⟨rfl, hprompt, fun code detail h => RenderResult.noConfusion h⟩
  · have hd' : (dispatch_sd35_text2img attempt).1 = false := by
      simpa using hd
    have hout : sd35_render lp rp attempt req jobFolder now =
        { result := RenderResult.gpuError jobFolder (jobFolder ++ "/meta.json")
            (jobFolder ++ "/output.png") (dispatch_sd35_text2img attempt).2,
          persisted := some (buildPlannedMeta req (pyBasename jobFolder) now loraCfg refinerCfg) } := by
      unfold sd35_render
      rw [hl, hr]
      simp only [hd', Bool.not_false, if_true]
    rw [hout]
    exact ⟨rfl, hprompt, fun code detail h => RenderResult.noConfusion h⟩

theorem render_ignores_safety_screen_witness :
    (sd35_render [] [] (HttpAttempt.responded 200 "\x7b\x7d" (some [("status", JVal.s "ok")]))
        { prompt := "child porn" } "outputs/2025-01-01/joby" "T0").persisted
        = some (buildPlannedMeta { prompt := "child porn" }
            (pyBasename "outputs/2025-01-01/joby") "T0" none none)
    ∧ dictGet (buildPlannedMeta { prompt := "child porn" }
          (pyBasename "outputs/2025-01-01/joby") "T0" none none) "prompt"
        = some (JVal.s "child porn")
    ∧ ∀ (code : Nat) (detail : String),
        (sd35_render [] [] (HttpAttempt.responded 200 "\x7b\x7d" (some [("status", JVal.s "ok")]))
          { prompt := "child porn" } "outputs/2025-01-01/joby" "T0").result
          ≠ RenderResult.httpError code detail :=
  render_ignores_safety_screen [] []
    (HttpAttempt.responded 200 "\x7b\x7d" (some [("status", JVal.s "ok")]))
    { prompt := "child porn" } "outputs/2025-01-01/joby" "T0" none none
    rfl rfl (by decide)

theorem nil_mem_writeMetaStates (old : List Char) (m : Meta) :
    ([] : List Char) ∈ writeMetaStates old m := by
  unfold writeMetaStates prefixesOf
  apply List.mem_cons_of_mem
  apply List.mem_map.mpr
  exact ⟨0, by simp, by simp⟩

/-- Counterexample for C9. The claim says a record write is atomic: any
reader observes the complete old document or the complete new one, never a
state that fails to parse. The write of `save_job_meta` / `_write_meta`
opens the file with mode `"w"` — truncating it in place — and then streams
the new document, so the truncated empty file is an observable intermediate
state; it is neither the old serialized document nor the new one, and it is
not the serialization of any record at all. -/
theorem record_write_truncation_cex :
    ([] : List Char) ∈ writeMetaStates (encMeta [("status", JVal.s "planned")])
        [("status", JVal.s "dispatched_skeleton")]
    ∧ ([] : List Char) ≠ encMeta [("status", JVal.s "planned")]
    ∧ ([] : List Char) ≠ encMeta [("status", JVal.s "dispatched_skeleton")]
    ∧ ∀ r : Meta, encMeta r ≠ [] :=
  ⟨nil_mem_writeMetaStates _ _, by decide, by decide, encMeta_ne_nil⟩

/-- Amended C9. Every write through the job record store is a
whole-document replace — after `save_job_meta(folder, record)` a load
yields exactly `record`, whatever was stored before — but it is **not**
atomic with respect to crashes or concurrent readers: the code truncates
the file in place and rewrites it (no temporary file, no rename), so the
truncated empty state is observable during every write and parses as no
record. -/
theorem record_write_replace_not_atomic :
    (∀ (st : Option Meta) (m : Meta), load_job_meta (save_job_meta st m) = Except.ok m)
    ∧ (∀ (old : List Char) (m : Meta), ([] : List Char) ∈ writeMetaStates old m)
    ∧ (∀ m : Meta, encMeta m ≠ []) :=
  ⟨fun _ _ => rfl, nil_mem_writeMetaStates, encMeta_ne_nil⟩

theorem record_write_replace_not_atomic_witness :
    load_job_meta (save_job_meta (some [("status", JVal.s "planned")])
        [("status", JVal.s "completed")]) = Except.ok [("status", JVal.s "completed")]
    ∧ ([] : List Char) ∈ writeMetaStates (encMeta [("status", JVal.s "planned")])
        [("status", JVal.s "completed")] :=
  ⟨record_write_replace_not_atomic.1 (some [("status", JVal.s "planned")])
      [("status", JVal.s "completed")],
   record_write_replace_not_atomic.2.1 (encMeta [("status", JVal.s "planned")])
      [("status", JVal.s "completed")]⟩

/-- Counterexample for C10. The claim says the screen rejects exactly when
a blocklist keyword occurs in the lowercased *concatenation* of prompt and
negative prompt. The code joins the two with a space: for prompt `"child"`
and negative prompt `"porn"` the code's space-joined text contains
`"child porn"` and is rejected, while no keyword occurs in the plain
concatenation `"childporn"`, so the claimed characterization calls it
allowed. -/
theorem safety_concat_cex :
    (check_prompt_safety "child" (some "porn")).1 = false
    ∧ (check_prompt_safety "child" (some "porn")).2 ≠ none
    ∧ claimedUnsafeCondition "child" (some "porn") = false := by
  decide

/-- Amended C10. `check_prompt_safety(prompt, negative_prompt)` returns
`allowed=False` with a non-null reason exactly when some keyword of the
fixed blocklist occurs as a substring of the lowercased **space-separated**
concatenation of prompt and negative prompt, and `allowed=True` with reason
`None` otherwise; matching is plain substring rather than word-boundary, so
benign prompts such as `"tcp"` (which contains the two letters `"cp"`) are
rejected. -/
theorem safety_substring_characterization :
    (∀ (p : String) (n : Option String),
      ((check_prompt_safety p n).1 = false
        ↔ (DISALLOWED_KEYWORDS.any
            (fun kw => pyIn kw (pyLower (p ++ " " ++ n.getD "")))) = true)
      ∧ ((check_prompt_safety p n).2 ≠ none
        ↔ (DISALLOWED_KEYWORDS.any
            (fun kw => pyIn kw (pyLower (p ++ " " ++ n.getD "")))) = true)
      ∧ ((check_prompt_safety p n).2 = none ↔ (check_prompt_safety p n).1 = true))
    ∧ (check_prompt_safety "tcp" none).1 = false
    ∧ (check_prompt_safety "tcp" none).2 ≠ none := by
  refine ⟨?_, by decide, by decide⟩
  intro p n
  simp only [check_prompt_safety]
  rw [filter_isEmpty_iff_not_any]
  cases hany : DISALLOWED_KEYWORDS.any
      (fun kw => pyIn kw (pyLower (p ++ " " ++ n.getD ""))) <;>
    simp [hany]

theorem safety_substring_characterization_witness :
    ((check_prompt_safety "a red chair" none).1 = false
      ↔ (DISALLOWED_KEYWORDS.any
          (fun kw => pyIn kw (pyLower ("a red chair" ++ " " ++ "")))) = true)
    ∧ ((check_prompt_safety "a red chair" none).2 ≠ none
      ↔ (DISALLOWED_KEYWORDS.any
          (fun kw => pyIn kw (pyLower ("a red chair" ++ " " ++ "")))) = true)
    ∧ ((check_prompt_safety "a red chair" none).2 = none
      ↔ (check_prompt_safety "a red chair" none).1 = true) :=
  safety_substring_characterization.1 "a red chair" none

end RenderExpo
